import Mathlib

/-
Verification of the dealer-management unified service's persistence and
data-access layer (entity services for Vehicle, Customer and Contract, the
contract route table, and the startup seed loader), shallowly embedded from
the TypeScript sources.

Conventions of the embedding:
- SQL TIMESTAMP / JS Date values are modelled as natural numbers (epoch
  milliseconds); DECIMAL amounts as integers.
- A database is a triple of row lists (ds_vehicle, ds_customer, ds_contract);
  SERIAL ids and NOW() are passed explicitly to the create operations.
- JS falsiness of the empty string and of undefined is modelled explicitly
  (jsOrStr, jsOrNull, jsOrInt).
- SQL LOWER and LIKE with a percent-wrapped wildcard-free pattern are
  modelled by ASCII lowercasing and contiguous-sublist containment.
-/

set_option linter.unusedVariables false

namespace Dealer

/-- ASCII lowercase of one character, as SQL LOWER and JS toLowerCase act on
the ASCII letters appearing in this data. -/
def charLower (c : Char) : Char :=
  if 'A' ≤ c ∧ c ≤ 'Z' then Char.ofNat (c.toNat + 32) else c

/-- Lowercased character sequence of a string. -/
def lowerChars (s : String) : List Char := s.data.map charLower

/-- Contiguous-sublist containment: models SQL LIKE with the pattern wrapped
in percent wildcards (for a wildcard-free pattern) and JS String.includes. -/
def listIncludes (pat : List Char) : List Char → Bool
  | [] => pat.isEmpty
  | h :: t => pat.isPrefixOf (h :: t) || listIncludes pat t

/-- JS `x || dflt` for an optional string x: undefined and "" are falsy. -/
def jsOrStr (x : Option String) (dflt : String) : String :=
  match x with
  | none => dflt
  | some s => if s = "" then dflt else s

/-- JS `x || null` for an optional string: "" collapses to null. -/
def jsOrNull (x : Option String) : Option String :=
  match x with
  | none => none
  | some s => if s = "" then none else some s

/-- JS `x || dflt` for a number x: 0 is falsy. -/
def jsOrInt (x dflt : Int) : Int :=
  if x = 0 then dflt else x

/-- A row of the ds_vehicle table. year and color carry the optionality of
the VehicleCreate interface; the INSERT stores them as given. -/
structure Vehicle where
  id : Nat
  vin_number : String
  make : String
  model : String
  year : Option Int
  color : Option String
  mileage : Int
  price : Int
  status : String
  created_at : Nat
  updated_at : Nat
deriving DecidableEq

/-- A row of the ds_customer table. -/
structure Customer where
  id : Nat
  first_name : String
  last_name : String
  phone_number : String
  email : Option String
  address : Option String
  created_at : Nat
  updated_at : Nat
deriving DecidableEq

/-- A row of the ds_contract table (models/Contract.ts Contract). -/
structure Contract where
  id : Nat
  contract_number : String
  vehicle_id : Nat
  customer_id : Nat
  vin_number : String
  customer_name : String
  customer_phone : String
  start_date : Nat
  end_date : Nat
  payment_amount : Int
  tax_amount : Int
  deposit_amount : Int
  status : String
  created_by : Option String
  created_at : Nat
  updated_at : Nat
deriving DecidableEq

/-- models/Vehicle.ts VehicleCreate. -/
structure VehicleCreate where
  vin_number : String
  make : String
  model : String
  year : Option Int
  color : Option String
  mileage : Int
  price : Int
  status : Option String
deriving DecidableEq

/-- models/Customer.ts CustomerCreate. -/
structure CustomerCreate where
  first_name : String
  last_name : String
  phone_number : String
  email : Option String
  address : Option String
deriving DecidableEq

/-- models/Contract.ts ContractCreate (tax_amount is a required field). -/
structure ContractCreate where
  contract_number : String
  vehicle_id : Nat
  customer_id : Nat
  vin_number : String
  customer_name : String
  customer_phone : String
  start_date : Nat
  end_date : Nat
  payment_amount : Int
  tax_amount : Int
  deposit_amount : Int
  status : Option String
  created_by : Option String
deriving DecidableEq

/-- models/Vehicle.ts VehicleUpdate: every field optional (undefined means
not supplied). -/
structure VehicleUpdate where
  vin_number : Option String
  make : Option String
  model : Option String
  year : Option Int
  color : Option String
  mileage : Option Int
  price : Option Int
  status : Option String
deriving DecidableEq

/-- models/Customer.ts CustomerUpdate. -/
structure CustomerUpdate where
  first_name : Option String
  last_name : Option String
  phone_number : Option String
  email : Option String
  address : Option String
deriving DecidableEq

/-- models/Contract.ts ContractUpdate. -/
structure ContractUpdate where
  contract_number : Option String
  vehicle_id : Option Nat
  customer_id : Option Nat
  vin_number : Option String
  customer_name : Option String
  customer_phone : Option String
  start_date : Option Nat
  end_date : Option Nat
  payment_amount : Option Int
  tax_amount : Option Int
  deposit_amount : Option Int
  status : Option String
  created_by : Option String
deriving DecidableEq

/-- The relational store: the three entity tables. -/
structure DB where
  vehicles : List Vehicle
  customers : List Customer
  contracts : List Contract
deriving DecidableEq

/-- ORDER BY created_at DESC for customers: a precedes b when its creation
time is at least b's. -/
def createdDescC : Customer → Customer → Prop :=
  fun a b => b.created_at ≤ a.created_at

instance : DecidableRel createdDescC :=
  fun a b => Nat.decLe b.created_at a.created_at

instance : IsTotal Customer createdDescC :=
  ⟨fun a b => Nat.le_total b.created_at a.created_at⟩

instance : IsTrans Customer createdDescC :=
  ⟨fun _ _ _ h1 h2 => Nat.le_trans h2 h1⟩

/-- ORDER BY created_at DESC for contracts. -/
def createdDescK : Contract → Contract → Prop :=
  fun a b => b.created_at ≤ a.created_at

instance : DecidableRel createdDescK :=
  fun a b => Nat.decLe b.created_at a.created_at

instance : IsTotal Contract createdDescK :=
  ⟨fun a b => Nat.le_total b.created_at a.created_at⟩

instance : IsTrans Contract createdDescK :=
  ⟨fun _ _ _ h1 h2 => Nat.le_trans h2 h1⟩

/-- Customer rows in created_at-descending order. -/
def orderCustomersDesc (l : List Customer) : List Customer :=
  l.insertionSort createdDescC

/-- Contract rows in created_at-descending order. -/
def orderContractsDesc (l : List Contract) : List Contract :=
  l.insertionSort createdDescK

/-- CustomerService.getCustomerById: SELECT * FROM ds_customer WHERE id = $1. -/
def getCustomerById (id : Nat) (db : DB) : Option Customer :=
  db.customers.find? (fun c => c.id == id)

/-- CustomerService.searchCustomersByName match condition:
LOWER(first_name) LIKE LOWER(pattern) OR LOWER(last_name) LIKE LOWER(pattern)
with pattern the query wrapped in percent wildcards. -/
def customerNameMatches (q : String) (c : Customer) : Bool :=
  listIncludes (lowerChars q) (lowerChars c.first_name) ||
  listIncludes (lowerChars q) (lowerChars c.last_name)

/-- CustomerService.searchCustomersByName: matching rows ordered by
created_at descending. -/
def searchCustomersByName (q : String) (db : DB) : List Customer :=
  (orderCustomersDesc db.customers).filter (customerNameMatches q)

/-- The row stored by CustomerService.createCustomer (id from the SERIAL
column, both timestamps from new Date()); email and address are passed
through `|| null`. -/
def newCustomerRow (d : CustomerCreate) (id now : Nat) : Customer :=
  { id := id
    first_name := d.first_name
    last_name := d.last_name
    phone_number := d.phone_number
    email := jsOrNull d.email
    address := jsOrNull d.address
    created_at := now
    updated_at := now }

/-- CustomerService.createCustomer: INSERT returning the created row. -/
def createCustomer (d : CustomerCreate) (id now : Nat) (db : DB) :
    Customer × DB :=
  let c := newCustomerRow d id now
  (c, { db with customers := db.customers ++ [c] })

/-- Net effect of CustomerService.updateCustomer's dynamic SET clause on one
row: each supplied field overwrites, updated_at is always written. -/
def applyCustomerUpdate (u : CustomerUpdate) (now : Nat) (c : Customer) :
    Customer :=
  { c with
    first_name := u.first_name.getD c.first_name
    last_name := u.last_name.getD c.last_name
    phone_number := u.phone_number.getD c.phone_number
    email := u.email.or c.email
    address := u.address.or c.address
    updated_at := now }

/-- CustomerService.updateCustomer: the SET clause always contains
updated_at, so the UPDATE matches whenever the id exists and the row is
returned; only a missing id yields null. -/
def updateCustomer (id : Nat) (u : CustomerUpdate) (now : Nat) (db : DB) :
    Option Customer × DB :=
  match db.customers.find? (fun c => c.id == id) with
  | none => (none, db)
  | some c =>
      let c2 := applyCustomerUpdate u now c
      (some c2,
       { db with customers := db.customers.map (fun r => if r.id == id then c2 else r) })

/-- The ds_vehicle UNIQUE(vin_number) violation raised by the store. -/
def vinUniqueViolation : String :=
  "duplicate key value violates unique constraint on ds_vehicle vin_number"

/-- The row stored by VehicleService.createVehicle: vin passed through
verbatim; mileage and price via `|| 0`; status via `|| 'available'`. -/
def newVehicleRow (d : VehicleCreate) (id now : Nat) : Vehicle :=
  { id := id
    vin_number := d.vin_number
    make := d.make
    model := d.model
    year := d.year
    color := d.color
    mileage := jsOrInt d.mileage 0
    price := jsOrInt d.price 0
    status := jsOrStr d.status "available"
    created_at := now
    updated_at := now }

/-- VehicleService.createVehicle, together with the schema's UNIQUE
constraint on vin_number (initializePostgres / initializeSQLite): an INSERT
whose vin collides with a stored row is rejected by the store. -/
def createVehicle (d : VehicleCreate) (id now : Nat) (db : DB) :
    Except String (Vehicle × DB) :=
  if db.vehicles.any (fun v => v.vin_number == d.vin_number) then
    Except.error vinUniqueViolation
  else
    let v := newVehicleRow d id now
    Except.ok (v, { db with vehicles := db.vehicles ++ [v] })

/-- VehicleService.getVehicleById. -/
def getVehicleById (id : Nat) (db : DB) : Option Vehicle :=
  db.vehicles.find? (fun v => v.id == id)

/-- Net effect of VehicleService.updateVehicle's dynamic SET clause on one
row. -/
def applyVehicleUpdate (u : VehicleUpdate) (now : Nat) (v : Vehicle) :
    Vehicle :=
  { v with
    vin_number := u.vin_number.getD v.vin_number
    make := u.make.getD v.make
    model := u.model.getD v.model
    year := (u.year.map some).getD v.year
    color := (u.color.map some).getD v.color
    mileage := u.mileage.getD v.mileage
    price := u.price.getD v.price
    status := u.status.getD v.status
    updated_at := now }

/-- VehicleService.updateVehicle: like updateCustomer, updated_at is always
in the SET clause, so an existing id always yields the (re)written row. -/
def updateVehicle (id : Nat) (u : VehicleUpdate) (now : Nat) (db : DB) :
    Option Vehicle × DB :=
  match db.vehicles.find? (fun v => v.id == id) with
  | none => (none, db)
  | some v =>
      let v2 := applyVehicleUpdate u now v
      (some v2,
       { db with vehicles := db.vehicles.map (fun r => if r.id == id then v2 else r) })

/-- The row stored by ContractService.createContract. The INSERT's column
list has no tax_amount, so the store's NOT NULL DEFAULT 0 applies to that
column regardless of the ContractCreate input; status goes through
`|| 'active'`. -/
def newContractRow (d : ContractCreate) (id now : Nat) : Contract :=
  { id := id
    contract_number := d.contract_number
    vehicle_id := d.vehicle_id
    customer_id := d.customer_id
    vin_number := d.vin_number
    customer_name := d.customer_name
    customer_phone := d.customer_phone
    start_date := d.start_date
    end_date := d.end_date
    payment_amount := d.payment_amount
    tax_amount := 0
    deposit_amount := d.deposit_amount
    status := jsOrStr d.status "active"
    created_by := d.created_by
    created_at := now
    updated_at := now }

/-- ContractService.createContract: INSERT returning the created row
(contract_number uniqueness is not exercised by any claim and is not
modelled). -/
def createContract (d : ContractCreate) (id now : Nat) (db : DB) :
    Contract × DB :=
  let k := newContractRow d id now
  (k, { db with contracts := db.contracts ++ [k] })

/-- ContractService.getAllContracts:
SELECT * FROM ds_contract ORDER BY created_at DESC LIMIT limit OFFSET skip. -/
def getAllContracts (skip limit : Nat) (db : DB) : List Contract :=
  ((orderContractsDesc db.contracts).drop skip).take limit

/-- findContract: WHERE c.id = $1 in ContractService.getContractById. -/
def findContract (db : DB) (id : Nat) : Option Contract :=
  db.contracts.find? (fun k => k.id == id)

/-- LEFT JOIN ds_vehicle v ON c.vehicle_id = v.id. -/
def findVehicle (db : DB) (id : Nat) : Option Vehicle :=
  db.vehicles.find? (fun v => v.id == id)

/-- LEFT JOIN ds_customer cust ON c.customer_id = cust.id. -/
def findCustomer (db : DB) (id : Nat) : Option Customer :=
  db.customers.find? (fun c => c.id == id)

/-- The flattened row produced by SELECT c.*, v.*, cust.* in
ContractService.getContractById. Both drivers build one object per row keyed
by column name, so duplicate names collapse with the last-selected column
winning: the contract's id, vin_number, status, created_at and updated_at
are overwritten by the vehicle and customer columns of the same name (NULL
when the LEFT JOIN found no match). -/
structure JoinedRow where
  id : Option Nat
  contract_number : String
  vehicle_id : Nat
  customer_id : Nat
  vin_number : Option String
  customer_name : String
  customer_phone : String
  start_date : Nat
  end_date : Nat
  payment_amount : Int
  tax_amount : Int
  deposit_amount : Int
  status : Option String
  created_by : Option String
  make : Option String
  model : Option String
  year : Option Int
  color : Option String
  mileage : Option Int
  price : Option Int
  first_name : Option String
  last_name : Option String
  phone_number : Option String
  email : Option String
  address : Option String
  created_at : Option Nat
  updated_at : Option Nat
deriving DecidableEq

/-- Build the flattened joined row for a contract and the (optionally
matched) vehicle and customer rows, with the column collapsing described on
JoinedRow. -/
def buildJoinedRow (k : Contract) (v : Option Vehicle) (cu : Option Customer) :
    JoinedRow :=
  { id := cu.map (fun c => c.id)
    contract_number := k.contract_number
    vehicle_id := k.vehicle_id
    customer_id := k.customer_id
    vin_number := v.map (fun w => w.vin_number)
    customer_name := k.customer_name
    customer_phone := k.customer_phone
    start_date := k.start_date
    end_date := k.end_date
    payment_amount := k.payment_amount
    tax_amount := k.tax_amount
    deposit_amount := k.deposit_amount
    status := v.map (fun w => w.status)
    created_by := k.created_by
    make := v.map (fun w => w.make)
    model := v.map (fun w => w.model)
    year := v.bind (fun w => w.year)
    color := v.bind (fun w => w.color)
    mileage := v.map (fun w => w.mileage)
    price := v.map (fun w => w.price)
    first_name := cu.map (fun c => c.first_name)
    last_name := cu.map (fun c => c.last_name)
    phone_number := cu.map (fun c => c.phone_number)
    email := cu.bind (fun c => c.email)
    address := cu.bind (fun c => c.address)
    created_at := cu.map (fun c => c.created_at)
    updated_at := cu.map (fun c => c.updated_at) }

/-- The vehicle object nested in the contract detail response. Its status
reads data.vehicle_status and its timestamps read data.vehicle_created_at
and data.vehicle_updated_at with `|| data.created_at` fallbacks; no column
of the joined row carries those names, so status is undefined and the
timestamps fall back to the clobbered top-level values. -/
structure RespVehicle where
  id : Nat
  vin_number : Option String
  make : Option String
  model : Option String
  year : Option Int
  color : Option String
  mileage : Option Int
  price : Option Int
  status : Option String
  created_at : Option Nat
  updated_at : Option Nat
deriving DecidableEq

/-- The customer object nested in the contract detail response. -/
structure RespCustomer where
  id : Nat
  first_name : Option String
  last_name : Option String
  phone_number : Option String
  email : Option String
  address : Option String
  created_at : Option Nat
  updated_at : Option Nat
deriving DecidableEq

/-- The object literal built by ContractService.mapToContractDetailResponse.
It produces no tax_amount member although the ContractDetailResponse
interface (extending Contract) declares one; images is a hardcoded empty
placeholder list. -/
structure ContractDetailResponse where
  id : Option Nat
  contract_number : String
  vehicle_id : Nat
  customer_id : Nat
  vin_number : Option String
  customer_name : String
  customer_phone : String
  start_date : Nat
  end_date : Nat
  payment_amount : Int
  deposit_amount : Int
  status : Option String
  created_by : Option String
  created_at : Option Nat
  updated_at : Option Nat
  images : List Nat
  vehicle : RespVehicle
  customer : RespCustomer
deriving DecidableEq

/-- ContractService.mapToContractDetailResponse on the flattened joined row. -/
def mapToContractDetailResponse (d : JoinedRow) : ContractDetailResponse :=
  { id := d.id
    contract_number := d.contract_number
    vehicle_id := d.vehicle_id
    customer_id := d.customer_id
    vin_number := d.vin_number
    customer_name := d.customer_name
    customer_phone := d.customer_phone
    start_date := d.start_date
    end_date := d.end_date
    payment_amount := d.payment_amount
    deposit_amount := d.deposit_amount
    status := d.status
    created_by := d.created_by
    created_at := d.created_at
    updated_at := d.updated_at
    images := []
    vehicle :=
      { id := d.vehicle_id
        vin_number := d.vin_number
        make := d.make
        model := d.model
        year := d.year
        color := d.color
        mileage := d.mileage
        price := d.price
        status := none
        created_at := d.created_at
        updated_at := d.updated_at }
    customer :=
      { id := d.customer_id
        first_name := d.first_name
        last_name := d.last_name
        phone_number := d.phone_number
        email := d.email
        address := d.address
        created_at := d.created_at
        updated_at := d.updated_at } }

/-- ContractService.getContractById: three-way left join flattened and
mapped; null when no contract row matches. -/
def getContractById (id : Nat) (db : DB) : Option ContractDetailResponse :=
  match findContract db id with
  | none => none
  | some k =>
      some (mapToContractDetailResponse
        (buildJoinedRow k (findVehicle db k.vehicle_id) (findCustomer db k.customer_id)))

/-- The field names supplied by a ContractUpdate, in the order
Object.keys(updateData) enumerates the interface's members; mirrors
`fields` in ContractService.updateContract. -/
def contractUpdateFieldNames (u : ContractUpdate) : List String :=
  (if u.contract_number.isSome then ["contract_number"] else []) ++
  (if u.vehicle_id.isSome then ["vehicle_id"] else []) ++
  (if u.customer_id.isSome then ["customer_id"] else []) ++
  (if u.vin_number.isSome then ["vin_number"] else []) ++
  (if u.customer_name.isSome then ["customer_name"] else []) ++
  (if u.customer_phone.isSome then ["customer_phone"] else []) ++
  (if u.start_date.isSome then ["start_date"] else []) ++
  (if u.end_date.isSome then ["end_date"] else []) ++
  (if u.payment_amount.isSome then ["payment_amount"] else []) ++
  (if u.tax_amount.isSome then ["tax_amount"] else []) ++
  (if u.deposit_amount.isSome then ["deposit_amount"] else []) ++
  (if u.status.isSome then ["status"] else []) ++
  (if u.created_by.isSome then ["created_by"] else [])

/-- Net effect of ContractService.updateContract's dynamic SET clause on one
row. -/
def applyContractUpdate (u : ContractUpdate) (now : Nat) (k : Contract) :
    Contract :=
  { k with
    contract_number := u.contract_number.getD k.contract_number
    vehicle_id := u.vehicle_id.getD k.vehicle_id
    customer_id := u.customer_id.getD k.customer_id
    vin_number := u.vin_number.getD k.vin_number
    customer_name := u.customer_name.getD k.customer_name
    customer_phone := u.customer_phone.getD k.customer_phone
    start_date := u.start_date.getD k.start_date
    end_date := u.end_date.getD k.end_date
    payment_amount := u.payment_amount.getD k.payment_amount
    tax_amount := u.tax_amount.getD k.tax_amount
    deposit_amount := u.deposit_amount.getD k.deposit_amount
    status := u.status.getD k.status
    created_by := (u.created_by.map some).getD k.created_by
    updated_at := now }

/-- ContractService.updateContract: unlike the other two services it guards
on zero supplied fields (`if (fields.length === 0) return null`). -/
def updateContract (id : Nat) (u : ContractUpdate) (now : Nat) (db : DB) :
    Option Contract × DB :=
  if contractUpdateFieldNames u = [] then (none, db)
  else
    match db.contracts.find? (fun k => k.id == id) with
    | none => (none, db)
    | some k =>
        let k2 := applyContractUpdate u now k
        (some k2,
         { db with contracts := db.contracts.map (fun r => if r.id == id then k2 else r) })

/-- The route handlers of the contract router. -/
inductive Handler where
  | create
  | list
  | byId
  | update
  | remove
  | search
deriving DecidableEq

/-- Express path-pattern matching for one route: a `:id` segment matches any
one segment, a literal segment matches itself. -/
def patMatch : List String → List String → Bool
  | [], [] => true
  | p :: ps, s :: ss => (p == ":id" || p == s) && patMatch ps ss
  | _, _ => false

/-- The contract router's routes in registration order: POST /new, GET /,
GET /:id, PUT /:id, DELETE /:id, GET /search. -/
def contractRouteTable : List (String × List String × Handler) :=
  [("POST", ["new"], Handler.create),
   ("GET", ([] : List String), Handler.list),
   ("GET", [":id"], Handler.byId),
   ("PUT", [":id"], Handler.update),
   ("DELETE", [":id"], Handler.remove),
   ("GET", ["search"], Handler.search)]

/-- Express dispatch: the first registered route whose method and pattern
match wins. -/
def dispatchContract (method : String) (path : List String) : Option Handler :=
  (contractRouteTable.find? (fun r => r.1 == method && patMatch r.2.1 path)).map
    (fun r => r.2.2)

/-- The five sample vehicles inserted by the seed loader (ids from the
SERIAL column, timestamps from NOW()). -/
def sampleVehicles (baseId now : Nat) : List Vehicle :=
  [{ id := baseId, vin_number := "1HGBH41JXMN109186", make := "Honda",
     model := "Civic", year := some 2021, color := some "Blue",
     mileage := 15000, price := 25000, status := "available",
     created_at := now, updated_at := now },
   { id := baseId + 1, vin_number := "2T1BURHE0JC123456", make := "Toyota",
     model := "Camry", year := some 2020, color := some "Silver",
     mileage := 25000, price := 28000, status := "available",
     created_at := now, updated_at := now },
   { id := baseId + 2, vin_number := "3VWDX7AJ5DM123789", make := "Volkswagen",
     model := "Golf", year := some 2019, color := some "White",
     mileage := 35000, price := 22000, status := "available",
     created_at := now, updated_at := now },
   { id := baseId + 3, vin_number := "4T1B11HK5JU123456", make := "Toyota",
     model := "Corolla", year := some 2022, color := some "Red",
     mileage := 8000, price := 30000, status := "available",
     created_at := now, updated_at := now },
   { id := baseId + 4, vin_number := "5NPE34AF5FH123789", make := "Hyundai",
     model := "Sonata", year := some 2021, color := some "Black",
     mileage := 18000, price := 26000, status := "available",
     created_at := now, updated_at := now }]

/-- The five sample customers inserted by the seed loader. -/
def sampleCustomers (baseId now : Nat) : List Customer :=
  [{ id := baseId, first_name := "John", last_name := "Smith",
     phone_number := "555-0101", email := some "john.smith@email.com",
     address := some "123 Main St, Anytown, USA",
     created_at := now, updated_at := now },
   { id := baseId + 1, first_name := "Sarah", last_name := "Johnson",
     phone_number := "555-0102", email := some "sarah.johnson@email.com",
     address := some "456 Oak Ave, Somewhere, USA",
     created_at := now, updated_at := now },
   { id := baseId + 2, first_name := "Michael", last_name := "Brown",
     phone_number := "555-0103", email := some "michael.brown@email.com",
     address := some "789 Pine Rd, Elsewhere, USA",
     created_at := now, updated_at := now },
   { id := baseId + 3, first_name := "Emily", last_name := "Davis",
     phone_number := "555-0104", email := some "emily.davis@email.com",
     address := some "321 Elm St, Nowhere, USA",
     created_at := now, updated_at := now },
   { id := baseId + 4, first_name := "David", last_name := "Wilson",
     phone_number := "555-0105", email := some "david.wilson@email.com",
     address := some "654 Maple Dr, Anywhere, USA",
     created_at := now, updated_at := now }]

/-- seedSampleData (seedPostgresData / seedSQLiteData): each table's insert
is guarded independently by its COUNT(*) being zero. -/
def seedSampleData (baseV baseC now : Nat) (db : DB) : DB :=
  let db1 :=
    if db.vehicles.length = 0
    then { db with vehicles := db.vehicles ++ sampleVehicles baseV now }
    else db
  if db1.customers.length = 0
  then { db1 with customers := db1.customers ++ sampleCustomers baseC now }
  else db1

/-- A SQL value, for modelling the dynamically built SET clauses. -/
inductive SqlValue where
  | s (v : String)
  | i (v : Int)
  | t (v : Nat)
  | null
deriving DecidableEq

/-- Apply a SET assignment list left to right to a row viewed as a map from
column name to value. -/
def applyAssignments (row : String → SqlValue) (l : List (String × SqlValue)) :
    String → SqlValue :=
  l.foldl (fun r kv => fun c => if c = kv.1 then kv.2 else r c) row

/-- The assignments pushed onto updateFields/values by
VehicleService.updateVehicle for the supplied fields, in source order
(updated_at excluded; it is appended unconditionally afterwards). -/
def vehicleSuppliedAssignments (u : VehicleUpdate) : List (String × SqlValue) :=
  (match u.vin_number with | some x => [("vin_number", SqlValue.s x)] | none => []) ++
  (match u.make with | some x => [("make", SqlValue.s x)] | none => []) ++
  (match u.model with | some x => [("model", SqlValue.s x)] | none => []) ++
  (match u.year with | some x => [("year", SqlValue.i x)] | none => []) ++
  (match u.color with | some x => [("color", SqlValue.s x)] | none => []) ++
  (match u.mileage with | some x => [("mileage", SqlValue.i x)] | none => []) ++
  (match u.price with | some x => [("price", SqlValue.i x)] | none => []) ++
  (match u.status with | some x => [("status", SqlValue.s x)] | none => [])

/-- The full SET clause of VehicleService.updateVehicle: the supplied fields
followed by the unconditional updated_at. -/
def vehicleUpdateAssignments (u : VehicleUpdate) (now : Nat) :
    List (String × SqlValue) :=
  vehicleSuppliedAssignments u ++ [("updated_at", SqlValue.t now)]

/-- The supplied-field assignments of CustomerService.updateCustomer. -/
def customerSuppliedAssignments (u : CustomerUpdate) : List (String × SqlValue) :=
  (match u.first_name with | some x => [("first_name", SqlValue.s x)] | none => []) ++
  (match u.last_name with | some x => [("last_name", SqlValue.s x)] | none => []) ++
  (match u.phone_number with | some x => [("phone_number", SqlValue.s x)] | none => []) ++
  (match u.email with | some x => [("email", SqlValue.s x)] | none => []) ++
  (match u.address with | some x => [("address", SqlValue.s x)] | none => [])

/-- The full SET clause of CustomerService.updateCustomer. -/
def customerUpdateAssignments (u : CustomerUpdate) (now : Nat) :
    List (String × SqlValue) :=
  customerSuppliedAssignments u ++ [("updated_at", SqlValue.t now)]

/-- The supplied-field assignments of ContractService.updateContract
(Object.keys filtered to defined members, in interface order). -/
def contractSuppliedAssignments (u : ContractUpdate) : List (String × SqlValue) :=
  (match u.contract_number with | some x => [("contract_number", SqlValue.s x)] | none => []) ++
  (match u.vehicle_id with | some x => [("vehicle_id", SqlValue.t x)] | none => []) ++
  (match u.customer_id with | some x => [("customer_id", SqlValue.t x)] | none => []) ++
  (match u.vin_number with | some x => [("vin_number", SqlValue.s x)] | none => []) ++
  (match u.customer_name with | some x => [("customer_name", SqlValue.s x)] | none => []) ++
  (match u.customer_phone with | some x => [("customer_phone", SqlValue.s x)] | none => []) ++
  (match u.start_date with | some x => [("start_date", SqlValue.t x)] | none => []) ++
  (match u.end_date with | some x => [("end_date", SqlValue.t x)] | none => []) ++
  (match u.payment_amount with | some x => [("payment_amount", SqlValue.i x)] | none => []) ++
  (match u.tax_amount with | some x => [("tax_amount", SqlValue.i x)] | none => []) ++
  (match u.deposit_amount with | some x => [("deposit_amount", SqlValue.i x)] | none => []) ++
  (match u.status with | some x => [("status", SqlValue.s x)] | none => []) ++
  (match u.created_by with | some x => [("created_by", SqlValue.s x)] | none => [])

/-- The full SET clause of ContractService.updateContract (updated_at is
appended to the dynamic clause). -/
def contractUpdateAssignments (u : ContractUpdate) (now : Nat) :
    List (String × SqlValue) :=
  contractSuppliedAssignments u ++ [("updated_at", SqlValue.t now)]

/-- The CustomerUpdate with no field supplied (request body {}). -/
def emptyCustomerUpdate : CustomerUpdate :=
  { first_name := none, last_name := none, phone_number := none,
    email := none, address := none }

/-- The VehicleUpdate with no field supplied. -/
def emptyVehicleUpdate : VehicleUpdate :=
  { vin_number := none, make := none, model := none, year := none,
    color := none, mileage := none, price := none, status := none }

/-- The ContractUpdate with no field supplied. -/
def emptyContractUpdate : ContractUpdate :=
  { contract_number := none, vehicle_id := none, customer_id := none,
    vin_number := none, customer_name := none, customer_phone := none,
    start_date := none, end_date := none, payment_amount := none,
    tax_amount := none, deposit_amount := none, status := none,
    created_by := none }

/-- Concrete customer row used to exercise the empty-partial update. -/
def c1cust : Customer :=
  { id := 1, first_name := "Jane", last_name := "Doe",
    phone_number := "555-1234", email := none, address := none,
    created_at := 10, updated_at := 10 }

/-- Concrete vehicle row used to exercise the empty-partial update. -/
def c1veh : Vehicle :=
  { id := 1, vin_number := "2T1BURHE0JC123456", make := "Toyota",
    model := "Camry", year := some 2020, color := some "Silver",
    mileage := 25000, price := 28000, status := "available",
    created_at := 10, updated_at := 10 }

/-- Store holding exactly one customer (id 1) and one vehicle (id 1). -/
def c1db : DB :=
  { vehicles := [c1veh], customers := [c1cust], contracts := [] }

/-- A ContractCreate whose tax_amount is 100. -/
def c2input : ContractCreate :=
  { contract_number := "C-0001", vehicle_id := 1, customer_id := 2,
    vin_number := "1HGBH41JXMN109186", customer_name := "Sarah Johnson",
    customer_phone := "555-0102", start_date := 100, end_date := 200,
    payment_amount := 500, tax_amount := 100, deposit_amount := 50,
    status := some "active", created_by := none }

/-- The empty store. -/
def c2db0 : DB := { vehicles := [], customers := [], contracts := [] }

/-- A stored customer named Sarah Johnson. -/
def c3sarah : Customer :=
  { id := 2, first_name := "Sarah", last_name := "Johnson",
    phone_number := "555-0102", email := some "sarah.johnson@email.com",
    address := some "456 Oak Ave, Somewhere, USA",
    created_at := 20, updated_at := 20 }

/-- Store holding exactly the customer Sarah Johnson. -/
def c3db : DB := { vehicles := [], customers := [c3sarah], contracts := [] }

/-- Vehicle row with id 1 referenced by the joined contract. -/
def c5vehicle : Vehicle :=
  { id := 1, vin_number := "1HGBH41JXMN109186", make := "Honda",
    model := "Civic", year := some 2021, color := some "Blue",
    mileage := 15000, price := 25000, status := "available",
    created_at := 11, updated_at := 11 }

/-- Customer row with id 2 referenced by the joined contract. -/
def c5customer : Customer :=
  { id := 2, first_name := "Sarah", last_name := "Johnson",
    phone_number := "555-0102", email := some "sarah.johnson@email.com",
    address := none, created_at := 22, updated_at := 22 }

/-- Contract row with id 10 referencing vehicle 1 and customer 2. -/
def c5contract : Contract :=
  { id := 10, contract_number := "C-0002", vehicle_id := 1, customer_id := 2,
    vin_number := "1HGBH41JXMN109186", customer_name := "Sarah Johnson",
    customer_phone := "555-0102", start_date := 100, end_date := 200,
    payment_amount := 500, tax_amount := 0, deposit_amount := 50,
    status := "active", created_by := none, created_at := 33, updated_at := 33 }

/-- Store for the joined read: contract 10 over vehicle 1 and customer 2. -/
def c5db : DB :=
  { vehicles := [c5vehicle], customers := [c5customer],
    contracts := [c5contract] }

/-- One of five otherwise-identical contracts, distinguished by id and
creation time. -/
def c6contract (i t : Nat) : Contract :=
  { id := i, contract_number := "K", vehicle_id := 1, customer_id := 1,
    vin_number := "1HGBH41JXMN109186", customer_name := "John Smith",
    customer_phone := "555-0101", start_date := 0, end_date := 0,
    payment_amount := 1, tax_amount := 0, deposit_amount := 0,
    status := "active", created_by := none, created_at := t, updated_at := t }

/-- Store holding exactly five contracts with distinct ids and distinct
creation times. -/
def c6db : DB :=
  { vehicles := [], customers := [],
    contracts := [c6contract 1 50, c6contract 2 40, c6contract 3 30,
                  c6contract 4 20, c6contract 5 10] }

/-- A VehicleUpdate supplying only make. -/
def c7uv : VehicleUpdate := { emptyVehicleUpdate with make := some "Honda" }

/-- A CustomerUpdate supplying only first_name. -/
def c7uc : CustomerUpdate :=
  { emptyCustomerUpdate with first_name := some "Jane" }

/-- A ContractUpdate supplying only status. -/
def c7uk : ContractUpdate :=
  { emptyContractUpdate with status := some "returned" }

/-- A row whose every column is NULL, for exercising the SET clause. -/
def c7row : String → SqlValue := fun _ => SqlValue.null

/-- A valid vehicle creation input. -/
def c8d : VehicleCreate :=
  { vin_number := "1HGBH41JXMN109186", make := "Honda", model := "Civic",
    year := some 2021, color := some "Blue", mileage := 15000,
    price := 25000, status := none }

/-- The empty store the first creation runs against. -/
def c8db0 : DB := { vehicles := [], customers := [], contracts := [] }

/-- The row stored by the first creation. -/
def c8v : Vehicle := newVehicleRow c8d 1 0

/-- The store after the first creation. -/
def c8db1 : DB := { vehicles := [c8v], customers := [], contracts := [] }

/-- The empty store the seed loader runs against. -/
def c9db0 : DB := { vehicles := [], customers := [], contracts := [] }

/-- A store whose vehicle and customer tables are already populated. -/
def c9db2 : DB :=
  { vehicles := sampleVehicles 1 0, customers := sampleCustomers 1 0,
    contracts := [] }

/-- A contract creation input with no status supplied. -/
def c10d : ContractCreate :=
  { contract_number := "C-0003", vehicle_id := 1, customer_id := 2,
    vin_number := "1HGBH41JXMN109186", customer_name := "John Smith",
    customer_phone := "555-0101", start_date := 1, end_date := 2,
    payment_amount := 10, tax_amount := 0, deposit_amount := 0,
    status := none, created_by := none }

/-- Applying a SET assignment list never changes a column that none of the
assignments name. -/
theorem applyAssignments_not_touched :
    ∀ (l : List (String × SqlValue)) (row : String → SqlValue) (c : String),
      c ∉ l.map Prod.fst → applyAssignments row l c = row c := by
  intro l
  induction l with
  | nil => intro row c h; rfl
  | cons kv tl ih =>
      intro row c h
      rw [List.map_cons, List.mem_cons, not_or] at h
      have step : applyAssignments row (kv :: tl) c =
          applyAssignments (fun c2 => if c2 = kv.1 then kv.2 else row c2) tl c := rfl
      rw [step, ih _ c h.2]
      simp [h.1]

/-- Membership characterization of the customer name search: a row is
returned exactly when it is stored and its first or last name matches the
query case-insensitively as a substring. -/
theorem mem_searchCustomersByName (q : String) (db : DB) (c : Customer) :
    c ∈ searchCustomersByName q db ↔
      c ∈ db.customers ∧ customerNameMatches q c = true := by
  unfold searchCustomersByName orderCustomersDesc
  rw [List.mem_filter, (List.perm_insertionSort createdDescC db.customers).mem_iff]

/-- Splitting a five-element duplicate-free list into pages of size two:
the pages have sizes 2, 2, 1, they concatenate back to the list, and they
are pairwise disjoint. -/
theorem fivePage_split {α : Type} (L : List α) (h5 : L.length = 5)
    (hnd : L.Nodup) :
    (L.take 2).length = 2 ∧ ((L.drop 2).take 2).length = 2 ∧
    ((L.drop 4).take 2).length = 1 ∧
    L.take 2 ++ (L.drop 2).take 2 ++ (L.drop 4).take 2 = L ∧
    List.Disjoint (L.take 2) ((L.drop 2).take 2) ∧
    List.Disjoint (L.take 2) ((L.drop 4).take 2) ∧
    List.Disjoint ((L.drop 2).take 2) ((L.drop 4).take 2) := by
  have e2 : (L.drop 4).take 2 = L.drop 4 :=
    List.take_of_length_le (by simp [List.length_drop, h5])
  have h44 : L.drop 4 = (L.drop 2).drop 2 := by rw [List.drop_drop]
  have hcat : L.take 2 ++ ((L.drop 2).take 2 ++ (L.drop 4).take 2) = L := by
    rw [e2, h44, List.take_append_drop, List.take_append_drop]
  have hnd2 : (L.take 2 ++ ((L.drop 2).take 2 ++ (L.drop 4).take 2)).Nodup := by
    rw [hcat]; exact hnd
  rw [List.nodup_append] at hnd2
  obtain ⟨nd0, nd12, disj0⟩ := hnd2
  rw [List.nodup_append] at nd12
  obtain ⟨nd1, nd2, disj12⟩ := nd12
  rw [List.disjoint_append_right] at disj0
  refine ⟨?_, ?_, ?_, ?_, disj0.1, disj0.2, disj12⟩
  · rw [List.length_take, h5]; decide
  · rw [List.length_take, List.length_drop, h5]; decide
  · rw [e2, List.length_drop, h5]
  · rw [List.append_assoc]; exact hcat

/-- C2: createContract silently drops the tax_amount of its ContractCreate
input: the INSERT lists no tax_amount column, so the created row carries the
store default 0, not the input's 100. The claim that every ContractCreate
field (tax_amount included) round-trips through create and getById fails
here; the Contract model and the schema both declare tax_amount, so the
omission contradicts the code's own declarations. -/
theorem createContract_drops_tax_amount :
    c2input.tax_amount = 100 ∧
    (createContract c2input 10 5 c2db0).1.tax_amount = 0 ∧
    (createContract c2input 10 5 c2db0).1.tax_amount ≠ c2input.tax_amount :=
  ⟨rfl, rfl, by decide⟩

/-- C4: a GET request for path segment "search" on the contract router is
captured by the earlier-registered GET /:id route (with id = "search"), not
by the GET /search route registered after it, so the search handler is
unreachable on its intended path. -/
theorem contracts_search_captured_by_id_route :
    dispatchContract "GET" ["search"] = some Handler.byId ∧
    dispatchContract "GET" ["search"] ≠ some Handler.search ∧
    Handler.byId ≠ Handler.search := by
  refine ⟨by decide, by decide, by decide⟩

/-- C10: a contract created with no status (or status "") stores status
"active"; any non-empty status string is stored verbatim, with no check that
it is one of the four documented values. -/
theorem contract_status_default_active_unvalidated
    (d : ContractCreate) (id now : Nat) (s : String) (hs : s ≠ "") :
    (newContractRow { d with status := none } id now).status = "active" ∧
    (newContractRow { d with status := some "" } id now).status = "active" ∧
    (newContractRow { d with status := some s } id now).status = s := by
  refine ⟨rfl, ?_, ?_⟩
  · simp [newContractRow, jsOrStr]
  · simp [newContractRow, jsOrStr, hs]

/-- C10 witness: instantiated at the undocumented status "bogus". -/
theorem contract_status_default_active_unvalidated_witness :
    ("bogus" : String) ≠ "" ∧
    ((newContractRow { c10d with status := none } 7 3).status = "active" ∧
     (newContractRow { c10d with status := some "" } 7 3).status = "active" ∧
     (newContractRow { c10d with status := some "bogus" } 7 3).status = "bogus") :=
  ⟨by decide,
   contract_status_default_active_unvalidated c10d 7 3 "bogus" (by decide)⟩

/-- C1 counterexample: updating the stored customer 1 with the empty partial
{} returns the row (updated_at refreshed), not a not-found result, because
CustomerService.updateCustomer unconditionally puts updated_at in the SET
clause and has no zero-field guard. -/
theorem emptyUpdate_customer_not_notFound :
    (updateCustomer 1 emptyCustomerUpdate 99 c1db).1 ≠ none ∧
    (updateCustomer 1 emptyCustomerUpdate 99 c1db).1 =
      some { c1cust with updated_at := 99 } := by
  refine ⟨by decide, by decide⟩

/-- C1 (amended): only ContractService.updateContract maps an empty partial
update to not-found; CustomerService.updateCustomer and
VehicleService.updateVehicle return the stored entity with only updated_at
rewritten whenever the id exists. -/
theorem emptyUpdate_behavior_by_service
    (db : DB) (id : Nat) (u : ContractUpdate) (now : Nat)
    (c : Customer) (v : Vehicle)
    (hu : contractUpdateFieldNames u = [])
    (hc : db.customers.find? (fun r => r.id == id) = some c)
    (hv : db.vehicles.find? (fun r => r.id == id) = some v) :
    (updateContract id u now db).1 = none ∧
    (updateCustomer id emptyCustomerUpdate now db).1 =
      some { c with updated_at := now } ∧
    (updateVehicle id emptyVehicleUpdate now db).1 =
      some { v with updated_at := now } := by
  refine ⟨?_, ?_, ?_⟩
  · unfold updateContract
    rw [if_pos hu]
  · unfold updateCustomer
    rw [hc]
    rfl
  · unfold updateVehicle
    rw [hv]
    rfl

/-- C1 witness: the amended statement at the one-customer one-vehicle store. -/
theorem emptyUpdate_behavior_by_service_witness :
    contractUpdateFieldNames emptyContractUpdate = [] ∧
    c1db.customers.find? (fun r => r.id == 1) = some c1cust ∧
    c1db.vehicles.find? (fun r => r.id == 1) = some c1veh ∧
    ((updateContract 1 emptyContractUpdate 99 c1db).1 = none ∧
     (updateCustomer 1 emptyCustomerUpdate 99 c1db).1 =
       some { c1cust with updated_at := 99 } ∧
     (updateVehicle 1 emptyVehicleUpdate 99 c1db).1 =
       some { c1veh with updated_at := 99 }) :=
  ⟨by decide, by decide, by decide,
   emptyUpdate_behavior_by_service c1db 1 emptyContractUpdate 99 c1cust c1veh
     (by decide) (by decide) (by decide)⟩

/-- C3 counterexample: the store holds Sarah Johnson, yet searching for
"arah john" returns nothing: the LIKE runs against first_name and last_name
separately, and neither single column contains "arah john". -/
theorem search_arah_john_misses_sarah_johnson :
    c3sarah ∈ c3db.customers ∧
    c3sarah.first_name = "Sarah" ∧ c3sarah.last_name = "Johnson" ∧
    searchCustomersByName "arah john" c3db = [] := by
  refine ⟨by decide, by decide, by decide, by decide⟩

/-- C3 (amended): search is a case-insensitive substring match on
first_name or last_name individually, so a stored Sarah Johnson is returned
for "sarah" and for "JOHN" but not for the cross-column string
"arah john". -/
theorem search_case_insensitive_per_column (db : DB) (c : Customer)
    (hf : c.first_name = "Sarah") (hl : c.last_name = "Johnson")
    (hmem : c ∈ db.customers) :
    c ∈ searchCustomersByName "sarah" db ∧
    c ∈ searchCustomersByName "JOHN" db ∧
    c ∉ searchCustomersByName "arah john" db := by
  refine ⟨?_, ?_, ?_⟩
  · refine (mem_searchCustomersByName _ _ _).mpr ⟨hmem, ?_⟩
    unfold customerNameMatches
    rw [hf, hl]
    decide
  · refine (mem_searchCustomersByName _ _ _).mpr ⟨hmem, ?_⟩
    unfold customerNameMatches
    rw [hf, hl]
    decide
  · intro hin
    have hmatch := ((mem_searchCustomersByName _ _ _).mp hin).2
    unfold customerNameMatches at hmatch
    rw [hf, hl] at hmatch
    exact absurd hmatch (by decide)

/-- C3 witness: the amended statement at the store holding Sarah Johnson. -/
theorem search_case_insensitive_per_column_witness :
    c3sarah.first_name = "Sarah" ∧ c3sarah.last_name = "Johnson" ∧
    c3sarah ∈ c3db.customers ∧
    (c3sarah ∈ searchCustomersByName "sarah" c3db ∧
     c3sarah ∈ searchCustomersByName "JOHN" c3db ∧
     c3sarah ∉ searchCustomersByName "arah john" c3db) :=
  ⟨rfl, rfl, by decide,
   search_case_insensitive_per_column c3db c3sarah rfl rfl (by decide)⟩

/-- C5 counterexample: the contract row has id 10 and status "active", but
the detail response's top-level id is 2 (the joined customer's id) and its
top-level status is "available" (the joined vehicle's status): SELECT c.*,
v.*, cust.* collapses duplicate column names with the last column winning,
so the contract's own id/status do not survive at the top level. -/
theorem getContractById_top_level_id_is_customer_id :
    (getContractById 10 c5db).map (fun r => r.id) = some (some 2) ∧
    (getContractById 10 c5db).map (fun r => r.id) ≠ some (some c5contract.id) ∧
    c5contract.id = 10 ∧
    (getContractById 10 c5db).map (fun r => r.status) = some (some "available") ∧
    c5contract.status = "active" := by
  refine ⟨by decide, by decide, by decide, by decide, by decide⟩

/-- C5 (amended): when the contract and its referenced vehicle and customer
all exist, getContractById returns the nested response with vehicle.id = V
and customer.id = C and with the contract's remaining fields at the top
level; however the top-level id, vin_number, status, created_at and
updated_at are taken from the joined vehicle/customer columns of the same
name, not from the contract row. -/
theorem getContractById_nested_ids_and_clobbered_top_level
    (db : DB) (cid : Nat) (k : Contract) (v : Vehicle) (cu : Customer)
    (hk : findContract db cid = some k)
    (hv : findVehicle db k.vehicle_id = some v)
    (hcu : findCustomer db k.customer_id = some cu) :
    getContractById cid db =
      some (mapToContractDetailResponse (buildJoinedRow k (some v) (some cu))) ∧
    (getContractById cid db).map (fun r => r.vehicle.id) = some k.vehicle_id ∧
    (getContractById cid db).map (fun r => r.customer.id) = some k.customer_id ∧
    (getContractById cid db).map (fun r => r.contract_number) = some k.contract_number ∧
    (getContractById cid db).map (fun r => r.vehicle_id) = some k.vehicle_id ∧
    (getContractById cid db).map (fun r => r.customer_id) = some k.customer_id ∧
    (getContractById cid db).map (fun r => r.customer_name) = some k.customer_name ∧
    (getContractById cid db).map (fun r => r.customer_phone) = some k.customer_phone ∧
    (getContractById cid db).map (fun r => r.start_date) = some k.start_date ∧
    (getContractById cid db).map (fun r => r.end_date) = some k.end_date ∧
    (getContractById cid db).map (fun r => r.payment_amount) = some k.payment_amount ∧
    (getContractById cid db).map (fun r => r.deposit_amount) = some k.deposit_amount ∧
    (getContractById cid db).map (fun r => r.created_by) = some k.created_by ∧
    (getContractById cid db).map (fun r => r.id) = some (some cu.id) ∧
    (getContractById cid db).map (fun r => r.vin_number) = some (some v.vin_number) ∧
    (getContractById cid db).map (fun r => r.status) = some (some v.status) ∧
    (getContractById cid db).map (fun r => r.created_at) = some (some cu.created_at) ∧
    (getContractById cid db).map (fun r => r.updated_at) = some (some cu.updated_at) := by
  have he : getContractById cid db =
      some (mapToContractDetailResponse (buildJoinedRow k (some v) (some cu))) := by
    simp only [getContractById, hk, hv, hcu]
  refine ⟨he, ?_, ?_, ?_, ?_, ?_, ?_, ?_, ?_, ?_, ?_, ?_, ?_, ?_, ?_, ?_, ?_, ?_⟩
  all_goals rw [he]; rfl

/-- C5 witness: the amended statement at the concrete store with contract
10 over vehicle 1 and customer 2. -/
theorem getContractById_nested_ids_and_clobbered_top_level_witness :
    findContract c5db 10 = some c5contract ∧
    findVehicle c5db c5contract.vehicle_id = some c5vehicle ∧
    findCustomer c5db c5contract.customer_id = some c5customer ∧
    (getContractById 10 c5db =
      some (mapToContractDetailResponse
        (buildJoinedRow c5contract (some c5vehicle) (some c5customer))) ∧
     (getContractById 10 c5db).map (fun r => r.vehicle.id) = some c5contract.vehicle_id ∧
     (getContractById 10 c5db).map (fun r => r.customer.id) = some c5contract.customer_id ∧
     (getContractById 10 c5db).map (fun r => r.contract_number) = some c5contract.contract_number ∧
     (getContractById 10 c5db).map (fun r => r.vehicle_id) = some c5contract.vehicle_id ∧
     (getContractById 10 c5db).map (fun r => r.customer_id) = some c5contract.customer_id ∧
     (getContractById 10 c5db).map (fun r => r.customer_name) = some c5contract.customer_name ∧
     (getContractById 10 c5db).map (fun r => r.customer_phone) = some c5contract.customer_phone ∧
     (getContractById 10 c5db).map (fun r => r.start_date) = some c5contract.start_date ∧
     (getContractById 10 c5db).map (fun r => r.end_date) = some c5contract.end_date ∧
     (getContractById 10 c5db).map (fun r => r.payment_amount) = some c5contract.payment_amount ∧
     (getContractById 10 c5db).map (fun r => r.deposit_amount) = some c5contract.deposit_amount ∧
     (getContractById 10 c5db).map (fun r => r.created_by) = some c5contract.created_by ∧
     (getContractById 10 c5db).map (fun r => r.id) = some (some c5customer.id) ∧
     (getContractById 10 c5db).map (fun r => r.vin_number) = some (some c5vehicle.vin_number) ∧
     (getContractById 10 c5db).map (fun r => r.status) = some (some c5vehicle.status) ∧
     (getContractById 10 c5db).map (fun r => r.created_at) = some (some c5customer.created_at) ∧
     (getContractById 10 c5db).map (fun r => r.updated_at) = some (some c5customer.updated_at)) :=
  ⟨by decide, by decide, by decide,
   getContractById_nested_ids_and_clobbered_top_level c5db 10 c5contract
     c5vehicle c5customer (by decide) (by decide) (by decide)⟩

/-- C6: over a store of exactly five contracts (distinct primary keys),
getAllContracts with (skip, limit) of (0,2), (2,2), (4,2) returns pages of
sizes 2, 2 and 1 that concatenate back to the full created_at-descending
listing, are pairwise disjoint, and the listing is sorted descending by
creation time. -/
theorem pagination_five_contracts_pages (db : DB)
    (h5 : db.contracts.length = 5)
    (hid : (db.contracts.map (fun k => k.id)).Nodup) :
    (getAllContracts 0 2 db).length = 2 ∧
    (getAllContracts 2 2 db).length = 2 ∧
    (getAllContracts 4 2 db).length = 1 ∧
    getAllContracts 0 2 db ++ getAllContracts 2 2 db ++ getAllContracts 4 2 db =
      orderContractsDesc db.contracts ∧
    List.Pairwise createdDescK (orderContractsDesc db.contracts) ∧
    List.Disjoint (getAllContracts 0 2 db) (getAllContracts 2 2 db) ∧
    List.Disjoint (getAllContracts 0 2 db) (getAllContracts 4 2 db) ∧
    List.Disjoint (getAllContracts 2 2 db) (getAllContracts 4 2 db) := by
  have hperm := List.perm_insertionSort createdDescK db.contracts
  have hL : (orderContractsDesc db.contracts).length = 5 := by
    unfold orderContractsDesc
    rw [hperm.length_eq]
    exact h5
  have hnd : (orderContractsDesc db.contracts).Nodup := by
    unfold orderContractsDesc
    exact hperm.nodup_iff.mpr (hid.of_map _)
  obtain ⟨l0, l1, l2, cat, d01, d02, d12⟩ :=
    fivePage_split (orderContractsDesc db.contracts) hL hnd
  exact ⟨l0, l1, l2, cat,
    List.sorted_insertionSort createdDescK db.contracts, d01, d02, d12⟩

/-- C6 witness: the pagination statement at a concrete store of five
contracts created at times 50, 40, 30, 20, 10. -/
theorem pagination_five_contracts_pages_witness :
    c6db.contracts.length = 5 ∧
    (c6db.contracts.map (fun k => k.id)).Nodup ∧
    ((getAllContracts 0 2 c6db).length = 2 ∧
     (getAllContracts 2 2 c6db).length = 2 ∧
     (getAllContracts 4 2 c6db).length = 1 ∧
     getAllContracts 0 2 c6db ++ getAllContracts 2 2 c6db ++ getAllContracts 4 2 c6db =
       orderContractsDesc c6db.contracts ∧
     List.Pairwise createdDescK (orderContractsDesc c6db.contracts) ∧
     List.Disjoint (getAllContracts 0 2 c6db) (getAllContracts 2 2 c6db) ∧
     List.Disjoint (getAllContracts 0 2 c6db) (getAllContracts 4 2 c6db) ∧
     List.Disjoint (getAllContracts 2 2 c6db) (getAllContracts 4 2 c6db)) :=
  ⟨rfl, by decide,
   pagination_five_contracts_pages c6db rfl (by decide)⟩

/-- C7: the SET clauses built by updateVehicle, updateCustomer and
updateContract write only the supplied fields plus updated_at: any column
outside the supplied assignment names and distinct from updated_at holds
its previous value after the update is applied. -/
theorem update_writes_only_supplied_columns_and_updated_at
    (uv : VehicleUpdate) (uc : CustomerUpdate) (uk : ContractUpdate)
    (now : Nat) (row : String → SqlValue) (c : String)
    (hv : c ∉ (vehicleSuppliedAssignments uv).map Prod.fst)
    (hc : c ∉ (customerSuppliedAssignments uc).map Prod.fst)
    (hk : c ∉ (contractSuppliedAssignments uk).map Prod.fst)
    (hu : c ≠ "updated_at") :
    applyAssignments row (vehicleUpdateAssignments uv now) c = row c ∧
    applyAssignments row (customerUpdateAssignments uc now) c = row c ∧
    applyAssignments row (contractUpdateAssignments uk now) c = row c := by
  refine ⟨?_, ?_, ?_⟩ <;> apply applyAssignments_not_touched
  · simp [vehicleUpdateAssignments, hv, hu]
  · simp [customerUpdateAssignments, hc, hu]
  · simp [contractUpdateAssignments, hk, hu]

/-- C7 witness: updates supplying one field each leave the column "price"
(supplied by none of them) untouched on an all-NULL row. -/
theorem update_writes_only_supplied_columns_and_updated_at_witness :
    "price" ∉ (vehicleSuppliedAssignments c7uv).map Prod.fst ∧
    "price" ∉ (customerSuppliedAssignments c7uc).map Prod.fst ∧
    "price" ∉ (contractSuppliedAssignments c7uk).map Prod.fst ∧
    ("price" : String) ≠ "updated_at" ∧
    (applyAssignments c7row (vehicleUpdateAssignments c7uv 9) "price" = c7row "price" ∧
     applyAssignments c7row (customerUpdateAssignments c7uc 9) "price" = c7row "price" ∧
     applyAssignments c7row (contractUpdateAssignments c7uk 9) "price" = c7row "price") :=
  ⟨by decide, by decide, by decide, by decide,
   update_writes_only_supplied_columns_and_updated_at c7uv c7uc c7uk 9 c7row
     "price" (by decide) (by decide) (by decide) (by decide)⟩

/-- C8: a successful createVehicle stores the input vin_number verbatim,
and a second createVehicle with the same vin_number against the resulting
store is rejected by the UNIQUE(vin_number) constraint. -/
theorem createVehicle_vin_exact_and_unique
    (d d2 : VehicleCreate) (id1 now1 id2 now2 : Nat) (db db2 : DB)
    (v : Vehicle)
    (hok : createVehicle d id1 now1 db = Except.ok (v, db2))
    (hsame : d2.vin_number = d.vin_number) :
    v.vin_number = d.vin_number ∧
    createVehicle d2 id2 now2 db2 = Except.error vinUniqueViolation := by
  unfold createVehicle at hok
  split at hok
  · exact absurd hok (by simp)
  · simp only [Except.ok.injEq, Prod.mk.injEq] at hok
    obtain ⟨h1, h2⟩ := hok
    subst h1
    subst h2
    refine ⟨rfl, ?_⟩
    unfold createVehicle
    rw [if_pos]
    simp [List.any_append, newVehicleRow, hsame]

/-- C8 witness: creating the Honda Civic into the empty store, then
creating it again with the same VIN. -/
theorem createVehicle_vin_exact_and_unique_witness :
    createVehicle c8d 1 0 c8db0 = Except.ok (c8v, c8db1) ∧
    c8d.vin_number = c8d.vin_number ∧
    (c8v.vin_number = c8d.vin_number ∧
     createVehicle c8d 2 7 c8db1 = Except.error vinUniqueViolation) :=
  ⟨rfl, rfl,
   createVehicle_vin_exact_and_unique c8d c8d 1 0 2 7 c8db0 c8db1 c8v rfl rfl⟩

/-- C9: seeding an empty store inserts exactly the five sample vehicles and
five sample customers; any further run of the seed loader (on the seeded
store, or on any store whose vehicle and customer tables are populated)
changes nothing. -/
theorem seedSampleData_guarded_and_idempotent
    (bV bC now bV2 bC2 now2 : Nat) (db db2 : DB)
    (h1 : db.vehicles = []) (h2 : db.customers = [])
    (h3 : db2.vehicles ≠ []) (h4 : db2.customers ≠ []) :
    (seedSampleData bV bC now db).vehicles = sampleVehicles bV now ∧
    (seedSampleData bV bC now db).customers = sampleCustomers bC now ∧
    (sampleVehicles bV now).length = 5 ∧
    (sampleCustomers bC now).length = 5 ∧
    seedSampleData bV2 bC2 now2 (seedSampleData bV bC now db) =
      seedSampleData bV bC now db ∧
    seedSampleData bV2 bC2 now2 db2 = db2 := by
  have noop : ∀ (a b n : Nat) (d : DB), d.vehicles ≠ [] → d.customers ≠ [] →
      seedSampleData a b n d = d := by
    intro a b n d hdv hdc
    have hv2 : ¬(d.vehicles.length = 0) := by
      simpa [List.length_eq_zero] using hdv
    have hc2 : ¬(d.customers.length = 0) := by
      simpa [List.length_eq_zero] using hdc
    unfold seedSampleData
    rw [if_neg hv2, if_neg hc2]
  have e : seedSampleData bV bC now db =
      { db with vehicles := sampleVehicles bV now,
                customers := sampleCustomers bC now } := by
    unfold seedSampleData
    simp [h1, h2]
  refine ⟨by rw [e], by rw [e], rfl, rfl, ?_, noop bV2 bC2 now2 db2 h3 h4⟩
  rw [e]
  exact noop bV2 bC2 now2 _ (by simp [sampleVehicles]) (by simp [sampleCustomers])

/-- C9 witness: seeding the empty store, then re-running the seed loader on
the seeded store and on an already-populated store. -/
theorem seedSampleData_guarded_and_idempotent_witness :
    c9db0.vehicles = [] ∧ c9db0.customers = [] ∧
    c9db2.vehicles ≠ [] ∧ c9db2.customers ≠ [] ∧
    ((seedSampleData 1 1 0 c9db0).vehicles = sampleVehicles 1 0 ∧
     (seedSampleData 1 1 0 c9db0).customers = sampleCustomers 1 0 ∧
     (sampleVehicles 1 0).length = 5 ∧
     (sampleCustomers 1 0).length = 5 ∧
     seedSampleData 6 6 9 (seedSampleData 1 1 0 c9db0) = seedSampleData 1 1 0 c9db0 ∧
     seedSampleData 6 6 9 c9db2 = c9db2) :=
  ⟨rfl, rfl, by decide, by decide,
   seedSampleData_guarded_and_idempotent 1 1 0 6 6 9 c9db0 c9db2 rfl rfl
     (by decide) (by decide)⟩

end Dealer
